import Mathlib

/-! A shallow embedding of RatekeeperInterface.h.

The header `fdbserver/RatekeeperInterface.h` declares the message contracts of the
Ratekeeper: the coordinator identity (`RatekeeperInterface`), the commit-cost estimate
with its merge operator (`TransactionCommitCostEstimation::operator+=`), the rate
request and reply, the halt request, the cost report, and the blob-granule side channel.

Conventions of the embedding.

* `int` is a 32-bit signed integer. A value is an `Int`; the result of `+=` is
  reduced with `wrapInt32` (two's-complement wraparound, which is what the compiled
  addition does; the C++ standard leaves signed overflow undefined).
* `uint64_t` is a `Nat`; the result of `+=` is reduced modulo `2 ^ 64`, as the
  standard prescribes for unsigned arithmetic.
* Types that the header only includes (`UID`, `LocalityData`, `RequestStream`,
  `ReplyPromise`, `HealthMetrics`, the tag maps, `double`) are type parameters.
-/

namespace Ratekeeper

/-! ## Machine integers -/

/-- Smallest value of a 32-bit signed `int`. -/
def INT_MIN : Int := -(2 ^ 31)

/-- Largest value of a 32-bit signed `int`. -/
def INT_MAX : Int := 2 ^ 31 - 1

/-- Largest value of a `uint64_t`. -/
def UINT64_MAX : Nat := 2 ^ 64 - 1

/-- Reduction of a mathematical integer to the 32-bit signed value with the same
residue modulo `2 ^ 32` (two's-complement wraparound). -/
def wrapInt32 (x : Int) : Int := (x + 2 ^ 31) % 2 ^ 32 - 2 ^ 31

/-- Reduction of a natural number to a `uint64_t` (modulo `2 ^ 64`). -/
def wrapUInt64 (x : Nat) : Nat := x % 2 ^ 64

/-! ## TransactionCommitCostEstimation (lines 62–79) -/

/-- The struct `TransactionCommitCostEstimation`: `int opsSum = 0; uint64_t costSum = 0;`. -/
structure TransactionCommitCostEstimation where
  opsSum : Int := 0
  costSum : Nat := 0
  deriving DecidableEq, Repr

namespace TransactionCommitCostEstimation

/-- The fields hold values of their machine types: `opsSum` a 32-bit signed `int`,
`costSum` a `uint64_t`. -/
def InRange (e : TransactionCommitCostEstimation) : Prop :=
  INT_MIN ≤ e.opsSum ∧ e.opsSum ≤ INT_MAX ∧ e.costSum ≤ UINT64_MAX

instance (e : TransactionCommitCostEstimation) : Decidable e.InRange := by
  unfold InRange; exact inferInstance

/-- Source: `uint64_t getCostSum() const { return costSum; }`. -/
def getCostSum (self : TransactionCommitCostEstimation) : Nat := self.costSum

/-- Source: `int getOpsSum() const { return opsSum; }`. -/
def getOpsSum (self : TransactionCommitCostEstimation) : Int := self.opsSum

/-- The value of `*this` after `*this += other` (lines 74–78):
`opsSum += other.opsSum; costSum += other.costSum; return *this;`.
The two statements write different fields, so this is the new `*this` also when
`other` is the same object. -/
def operatorPlusAssign (self other : TransactionCommitCostEstimation) :
    TransactionCommitCostEstimation :=
  { opsSum := wrapInt32 (self.opsSum + other.opsSum)
    costSum := wrapUInt64 (self.costSum + other.costSum) }

end TransactionCommitCostEstimation

/-- An object reference (an address). -/
abbrev Ref := Nat

/-- The objects of type `TransactionCommitCostEstimation` in memory, by address. -/
abbrev Heap := Ref → TransactionCommitCostEstimation

/-- The member function `operator+=` with its reference semantics: `this` and
`other` are addresses, the body runs its two assignments in order on the heap, and the
result is the final heap together with the returned reference (`return *this;`). -/
def execOperatorPlusAssign (h : Heap) (this other : Ref) : Heap × Ref :=
  -- opsSum += other.opsSum;
  let h1 : Heap := Function.update h this
    { h this with opsSum := wrapInt32 ((h this).opsSum + (h other).opsSum) }
  -- costSum += other.costSum;
  let h2 : Heap := Function.update h1 this
    { h1 this with costSum := wrapUInt64 ((h1 this).costSum + (h1 other).costSum) }
  -- return *this;
  (h2, this)

/-- Folding `+=` over a list of reports, starting from a default-constructed total:
`TransactionCommitCostEstimation total; for (auto const& r : L) total += r;`. -/
def aggregate (L : List TransactionCommitCostEstimation) : TransactionCommitCostEstimation :=
  L.foldl TransactionCommitCostEstimation.operatorPlusAssign {}

/-! ## RatekeeperInterface (lines 29–60) -/

/-- The struct `RatekeeperInterface`. The five `RequestStream<...>` members are endpoint
handles of type `Stream`; `LocalityData` and `UID` come from included headers. -/
structure RatekeeperInterface (Stream LocalityData UID : Type) where
  waitFailure : Stream
  getRateInfo : Stream
  haltRatekeeper : Stream
  reportCommitCostEstimation : Stream
  blobGranuleFileRequest : Stream
  locality : LocalityData
  myId : UID

namespace RatekeeperInterface

variable {Stream LocalityData UID : Type}

/-- Source: `constexpr static FileIdentifier file_identifier = 5983305;`. -/
def file_identifier : Nat := 5983305

/-- Source: `explicit RatekeeperInterface(const struct LocalityData& l, UID id)
: locality(l), myId(id) {}`. The five streams are default-constructed. -/
def create [Inhabited Stream] (l : LocalityData) (id : UID) :
    RatekeeperInterface Stream LocalityData UID :=
  { waitFailure := default
    getRateInfo := default
    haltRatekeeper := default
    reportCommitCostEstimation := default
    blobGranuleFileRequest := default
    locality := l
    myId := id }

/-- Source: `void initEndpoints() {}`. -/
def initEndpoints (self : RatekeeperInterface Stream LocalityData UID) :
    RatekeeperInterface Stream LocalityData UID := self

/-- Source: `UID id() const { return myId; }`. -/
def id (self : RatekeeperInterface Stream LocalityData UID) : UID := self.myId

/-- Source: `bool operator==(const RatekeeperInterface& r) const { return id() == r.id(); }`.
`UID::operator==` is the equality of identifiers. -/
def operatorEq [DecidableEq UID] (self r : RatekeeperInterface Stream LocalityData UID) : Bool :=
  decide (self.id = r.id)

/-- Source: `bool operator!=(const RatekeeperInterface& r) const { return !(*this == r); }`. -/
def operatorNe [DecidableEq UID] (self r : RatekeeperInterface Stream LocalityData UID) : Bool :=
  !(self.operatorEq r)

end RatekeeperInterface

/-! ## GetRateInfoReply (lines 81–94) -/

/-- The struct `GetRateInfoReply`. `Dbl` stands for `double`; `HealthMetrics` and the
throttled-tag map come from included headers. The struct declares no constructor and
no check on its members. -/
structure GetRateInfoReply (Dbl HealthMetrics ThrottledTags : Type) where
  transactionRate : Dbl
  batchTransactionRate : Dbl
  leaseDuration : Dbl
  healthMetrics : HealthMetrics
  throttledTags : Option ThrottledTags

namespace GetRateInfoReply

variable {Dbl HealthMetrics ThrottledTags : Type}

/-- Source: `constexpr static FileIdentifier file_identifier = 7845006;`. -/
def file_identifier : Nat := 7845006

end GetRateInfoReply

/-! ## GetRateInfoRequest (lines 96–121) -/

/-- The struct `GetRateInfoRequest`; the two counters are `int64_t`. -/
structure GetRateInfoRequest (UID TagCounts ReplyPromise : Type) where
  requesterID : UID
  totalReleasedTransactions : Int
  batchReleasedTransactions : Int
  throttledTagCounts : TagCounts
  detailed : Bool
  reply : ReplyPromise

namespace GetRateInfoRequest

variable {UID TagCounts ReplyPromise : Type}

/-- Source: `constexpr static FileIdentifier file_identifier = 9068521;`. -/
def file_identifier : Nat := 9068521

/-- The five-argument constructor (lines 107–114): the member initialiser list
`requesterID(requesterID), totalReleasedTransactions(totalReleasedTransactions),
batchReleasedTransactions(batchReleasedTransactions), throttledTagCounts(throttledTagCounts),
detailed(detailed)`; `reply` is default-constructed. -/
def create [Inhabited ReplyPromise] (requesterID : UID) (totalReleasedTransactions : Int)
    (batchReleasedTransactions : Int) (throttledTagCounts : TagCounts) (detailed : Bool) :
    GetRateInfoRequest UID TagCounts ReplyPromise :=
  { requesterID := requesterID
    totalReleasedTransactions := totalReleasedTransactions
    batchReleasedTransactions := batchReleasedTransactions
    throttledTagCounts := throttledTagCounts
    detailed := detailed
    reply := default }

end GetRateInfoRequest

/-! ## The remaining message types -/

/-- Source (line 124): `constexpr static FileIdentifier file_identifier = 6997218;`. -/
def HaltRatekeeperRequest.file_identifier : Nat := 6997218

/-- The map type `UIDTransactionTagMap<V>`: storage-server identifier, then tag, to value. -/
abbrev UIDTransactionTagMap (UID Tag V : Type) : Type := UID → Tag → Option V

/-- The struct `ReportCommitCostEstimationRequest` (lines 137–150): the cost map and the
reply promise are its only members. -/
structure ReportCommitCostEstimationRequest (UID Tag ReplyPromise : Type) where
  ssTrTagCommitCost : UIDTransactionTagMap UID Tag TransactionCommitCostEstimation
  reply : ReplyPromise

/-- Source (line 138): `constexpr static FileIdentifier file_identifier = 8314904;`. -/
def ReportCommitCostEstimationRequest.file_identifier : Nat := 8314904

/-- Source (line 154): `constexpr static FileIdentifier file_identifier = 4268041;`. -/
def MutationAndVersion.file_identifier : Nat := 4268041

/-- Source (line 183): `constexpr static FileIdentifier file_identifier = 6858612;`. -/
def BlobGranuleFileReply.file_identifier : Nat := 6858612

/-- Source (line 197): `constexpr static FileIdentifier file_identifier = 4150141;`. -/
def BlobGranuleFileRequest.file_identifier : Nat := 4150141

/-- The message types of the header that declare a `file_identifier`. -/
inductive MessageType where
  | RatekeeperInterface
  | GetRateInfoReply
  | GetRateInfoRequest
  | HaltRatekeeperRequest
  | ReportCommitCostEstimationRequest
  | MutationAndVersion
  | BlobGranuleFileReply
  | BlobGranuleFileRequest
  deriving DecidableEq, Repr

/-- The `file_identifier` constant declared by each message type. -/
def MessageType.file_identifier : MessageType → Nat
  | .RatekeeperInterface => Ratekeeper.RatekeeperInterface.file_identifier
  | .GetRateInfoReply => Ratekeeper.GetRateInfoReply.file_identifier
  | .GetRateInfoRequest => Ratekeeper.GetRateInfoRequest.file_identifier
  | .HaltRatekeeperRequest => Ratekeeper.HaltRatekeeperRequest.file_identifier
  | .ReportCommitCostEstimationRequest =>
      Ratekeeper.ReportCommitCostEstimationRequest.file_identifier
  | .MutationAndVersion => Ratekeeper.MutationAndVersion.file_identifier
  | .BlobGranuleFileReply => Ratekeeper.BlobGranuleFileReply.file_identifier
  | .BlobGranuleFileRequest => Ratekeeper.BlobGranuleFileRequest.file_identifier

/-- All message types, in the order of declaration in the header. -/
def MessageType.all : List MessageType :=
  [.RatekeeperInterface, .GetRateInfoReply, .GetRateInfoRequest, .HaltRatekeeperRequest,
   .ReportCommitCostEstimationRequest, .MutationAndVersion, .BlobGranuleFileReply,
   .BlobGranuleFileRequest]

/-! ## Lemmas on machine arithmetic -/

theorem wrapInt32_of_inRange (x : Int) (h1 : INT_MIN ≤ x) (h2 : x ≤ INT_MAX) :
    wrapInt32 x = x := by
  unfold wrapInt32
  unfold INT_MIN at h1
  unfold INT_MAX at h2
  omega

theorem wrapInt32_bounds (x : Int) : INT_MIN ≤ wrapInt32 x ∧ wrapInt32 x ≤ INT_MAX := by
  unfold wrapInt32 INT_MIN INT_MAX
  omega

theorem wrapInt32_add_left (x y : Int) : wrapInt32 (wrapInt32 x + y) = wrapInt32 (x + y) := by
  unfold wrapInt32
  omega

theorem wrapInt32_add_right (x y : Int) : wrapInt32 (x + wrapInt32 y) = wrapInt32 (x + y) := by
  unfold wrapInt32
  omega

theorem wrapUInt64_of_le (x : Nat) (h : x ≤ UINT64_MAX) : wrapUInt64 x = x := by
  unfold wrapUInt64
  unfold UINT64_MAX at h
  omega

theorem wrapUInt64_le (x : Nat) : wrapUInt64 x ≤ UINT64_MAX := by
  unfold wrapUInt64 UINT64_MAX
  omega

theorem wrapUInt64_add_left (x y : Nat) :
    wrapUInt64 (wrapUInt64 x + y) = wrapUInt64 (x + y) := by
  unfold wrapUInt64
  omega

theorem wrapUInt64_add_right (x y : Nat) :
    wrapUInt64 (x + wrapUInt64 y) = wrapUInt64 (x + y) := by
  unfold wrapUInt64
  omega

/-- The merge stays inside the machine types. -/
theorem operatorPlusAssign_inRange (a b : TransactionCommitCostEstimation) :
    (a.operatorPlusAssign b).InRange := by
  refine ⟨(wrapInt32_bounds _).1, (wrapInt32_bounds _).2, wrapUInt64_le _⟩

/-- The heap-level operator writes `operatorPlusAssign` into `this`, leaves every other
object alone and returns `this`. -/
theorem execOperatorPlusAssign_eq (h : Heap) (this other : Ref) :
    execOperatorPlusAssign h this other =
      (Function.update h this ((h this).operatorPlusAssign (h other)), this) := by
  unfold execOperatorPlusAssign TransactionCommitCostEstimation.operatorPlusAssign
  by_cases hto : other = this
  · subst hto
    simp [Function.update_same]
  · simp [Function.update_same, Function.update_noteq hto]

/-- Folding `+=` from an in-range running total adds, in machine arithmetic, the sums of
the reports' fields. -/
theorem foldl_operatorPlusAssign (L : List TransactionCommitCostEstimation) :
    ∀ t : TransactionCommitCostEstimation, t.InRange →
      L.foldl TransactionCommitCostEstimation.operatorPlusAssign t =
        { opsSum := wrapInt32 (t.opsSum + (L.map (·.opsSum)).sum)
          costSum := wrapUInt64 (t.costSum + (L.map (·.costSum)).sum) } := by
  induction L with
  | nil =>
    intro t ht
    obtain ⟨h1, h2, h3⟩ := ht
    simp [wrapInt32_of_inRange _ h1 h2, wrapUInt64_of_le _ h3]
  | cons x xs ih =>
    intro t _
    rw [List.foldl_cons, ih _ (operatorPlusAssign_inRange t x)]
    simp only [TransactionCommitCostEstimation.operatorPlusAssign, List.map_cons,
      List.sum_cons, wrapInt32_add_left, wrapUInt64_add_left, Int.add_assoc, Nat.add_assoc]

/-- The aggregate of a list is the pair of the machine-arithmetic sums of its fields. -/
theorem aggregate_eq (L : List TransactionCommitCostEstimation) :
    aggregate L =
      { opsSum := wrapInt32 (L.map (·.opsSum)).sum
        costSum := wrapUInt64 (L.map (·.costSum)).sum } := by
  unfold aggregate
  rw [foldl_operatorPlusAssign L {} (by decide)]
  simp

/-- The binary merge is commutative. -/
theorem operatorPlusAssign_comm (a b : TransactionCommitCostEstimation) :
    a.operatorPlusAssign b = b.operatorPlusAssign a := by
  simp only [TransactionCommitCostEstimation.operatorPlusAssign, Int.add_comm a.opsSum,
    Nat.add_comm a.costSum]

/-- The binary merge is associative. -/
theorem operatorPlusAssign_assoc (a b c : TransactionCommitCostEstimation) :
    (a.operatorPlusAssign b).operatorPlusAssign c =
      a.operatorPlusAssign (b.operatorPlusAssign c) := by
  simp only [TransactionCommitCostEstimation.operatorPlusAssign, wrapInt32_add_left,
    wrapInt32_add_right, wrapUInt64_add_left, wrapUInt64_add_right, Int.add_assoc,
    Nat.add_assoc]

/-! ## The claims -/

/-- Claim C1. `operator+=` is field-wise addition in the fields' machine types: after
`a += b` the object `a` holds `opsSum = old a.opsSum + b.opsSum` as a 32-bit signed
value and `costSum = old a.costSum + b.costSum` as a 64-bit unsigned value, both inside
their types; when a sum does not overflow its type it is the exact integer sum; a right
operand that is another object than `a` is unchanged (as is every other object); the
returned reference is the left operand. -/
theorem operatorPlusAssign_fieldwise (h : Heap) (this other : Ref) :
    ((execOperatorPlusAssign h this other).1 this).opsSum
        = wrapInt32 ((h this).opsSum + (h other).opsSum) ∧
    ((execOperatorPlusAssign h this other).1 this).costSum
        = wrapUInt64 ((h this).costSum + (h other).costSum) ∧
    ((execOperatorPlusAssign h this other).1 this).InRange ∧
    (INT_MIN ≤ (h this).opsSum + (h other).opsSum →
      (h this).opsSum + (h other).opsSum ≤ INT_MAX →
      ((execOperatorPlusAssign h this other).1 this).opsSum
        = (h this).opsSum + (h other).opsSum) ∧
    ((h this).costSum + (h other).costSum ≤ UINT64_MAX →
      ((execOperatorPlusAssign h this other).1 this).costSum
        = (h this).costSum + (h other).costSum) ∧
    (∀ p : Ref, p ≠ this → (execOperatorPlusAssign h this other).1 p = h p) ∧
    (execOperatorPlusAssign h this other).2 = this ∧
    (execOperatorPlusAssign h this other).1 (execOperatorPlusAssign h this other).2
        = (h this).operatorPlusAssign (h other) := by
  rw [execOperatorPlusAssign_eq]
  have hthis : Function.update h this ((h this).operatorPlusAssign (h other)) this
      = (h this).operatorPlusAssign (h other) := Function.update_same _ _ _
  refine ⟨?_, ?_, ?_, ?_, ?_, ?_, rfl, ?_⟩
  · exact congrArg (·.opsSum) hthis
  · exact congrArg (·.costSum) hthis
  · show (Function.update h this ((h this).operatorPlusAssign (h other)) this).InRange
    rw [hthis]
    exact operatorPlusAssign_inRange _ _
  · intro h1 h2
    exact (congrArg (·.opsSum) hthis).trans (wrapInt32_of_inRange _ h1 h2)
  · intro h1
    exact (congrArg (·.costSum) hthis).trans (wrapUInt64_of_le _ h1)
  · intro p hp
    exact Function.update_noteq hp _ _
  · exact hthis

/-- The example of the specification: with `a = {ops=5, cost=50}` at address 0 and
`b = {ops=3, cost=20}` at address 1, `a += b` leaves `{ops=8, cost=70}` in `a`, leaves
`b` as it was and returns the address of `a`. -/
theorem operatorPlusAssign_fieldwise_witness :
    ((execOperatorPlusAssign
        (fun p => if p = 0 then ⟨5, 50⟩ else if p = 1 then ⟨3, 20⟩ else {}) 0 1).1 0)
      = ⟨8, 70⟩ ∧
    ((execOperatorPlusAssign
        (fun p => if p = 0 then ⟨5, 50⟩ else if p = 1 then ⟨3, 20⟩ else {}) 0 1).1 1)
      = ⟨3, 20⟩ ∧
    (execOperatorPlusAssign
        (fun p => if p = 0 then ⟨5, 50⟩ else if p = 1 then ⟨3, 20⟩ else {}) 0 1).2 = 0 := by
  have key := operatorPlusAssign_fieldwise
    (fun p => if p = 0 then ⟨5, 50⟩ else if p = 1 then ⟨3, 20⟩ else {}) 0 1
  obtain ⟨_, _, _, hops, hcost, hframe, hret, _⟩ := key
  refine ⟨?_, ?_, hret⟩
  · have e1 := hops (by decide) (by decide)
    have e2 := hcost (by decide)
    cases hv : (execOperatorPlusAssign
        (fun p => if p = 0 then ⟨5, 50⟩ else if p = 1 then ⟨3, 20⟩ else {}) 0 1).1 0 with
    | mk o c =>
      rw [hv] at e1 e2
      simp at e1 e2
      simp [e1, e2]
  · exact hframe 1 (by decide)

/-- Claim C2. Aggregation is independent of delivery order: folding `+=` from a
default-constructed total over a list and over any permutation of it gives the same total,
whose fields are the sums of the reports' `opsSum` and `costSum` in the fields' machine
arithmetic; the binary merge is commutative and associative. -/
theorem aggregate_perm (L L' : List TransactionCommitCostEstimation) (hperm : L.Perm L') :
    aggregate L = aggregate L' ∧
    (aggregate L).opsSum = wrapInt32 (L.map (·.opsSum)).sum ∧
    (aggregate L).costSum = wrapUInt64 (L.map (·.costSum)).sum ∧
    (∀ a b : TransactionCommitCostEstimation,
      a.operatorPlusAssign b = b.operatorPlusAssign a) ∧
    (∀ a b c : TransactionCommitCostEstimation,
      (a.operatorPlusAssign b).operatorPlusAssign c
        = a.operatorPlusAssign (b.operatorPlusAssign c)) := by
  refine ⟨?_, ?_, ?_, operatorPlusAssign_comm, operatorPlusAssign_assoc⟩
  · rw [aggregate_eq L, aggregate_eq L', (hperm.map (·.opsSum)).sum_eq,
      (hperm.map (·.costSum)).sum_eq]
  · rw [aggregate_eq L]
  · rw [aggregate_eq L]

/-- Two reports delivered in either order aggregate to the same total. -/
theorem aggregate_perm_witness :
    [(⟨5, 50⟩ : TransactionCommitCostEstimation), ⟨3, 20⟩].Perm [⟨3, 20⟩, ⟨5, 50⟩] ∧
    aggregate [⟨5, 50⟩, ⟨3, 20⟩] = aggregate [⟨3, 20⟩, ⟨5, 50⟩] :=
  ⟨List.Perm.swap _ _ _, (aggregate_perm _ _ (List.Perm.swap _ _ _)).1⟩

/-- Claim C3. The merge is not idempotent: merging a report `r` twice into a running
total `t` gives `t`'s fields plus twice `r`'s fields (in machine arithmetic, and exactly
when nothing overflows), and when `r` has a non-zero field this differs from merging `r`
once. An estimate consists of `opsSum` and `costSum` only and a report request of the cost
map and the reply promise only, so neither carries a sequence number or dedup token. -/
theorem operatorPlusAssign_twice (t r : TransactionCommitCostEstimation) (hr : r.InRange) :
    ((t.operatorPlusAssign r).operatorPlusAssign r).opsSum
        = wrapInt32 (t.opsSum + 2 * r.opsSum) ∧
    ((t.operatorPlusAssign r).operatorPlusAssign r).costSum
        = wrapUInt64 (t.costSum + 2 * r.costSum) ∧
    (INT_MIN ≤ t.opsSum + 2 * r.opsSum → t.opsSum + 2 * r.opsSum ≤ INT_MAX →
      ((t.operatorPlusAssign r).operatorPlusAssign r).opsSum = t.opsSum + 2 * r.opsSum) ∧
    (t.costSum + 2 * r.costSum ≤ UINT64_MAX →
      ((t.operatorPlusAssign r).operatorPlusAssign r).costSum = t.costSum + 2 * r.costSum) ∧
    (r.opsSum ≠ 0 ∨ r.costSum ≠ 0 →
      (t.operatorPlusAssign r).operatorPlusAssign r ≠ t.operatorPlusAssign r) ∧
    (∀ e e' : TransactionCommitCostEstimation,
      e.opsSum = e'.opsSum → e.costSum = e'.costSum → e = e') ∧
    (∀ (UID Tag ReplyPromise : Type) (q q' : ReportCommitCostEstimationRequest UID Tag ReplyPromise),
      q.ssTrTagCommitCost = q'.ssTrTagCommitCost → q.reply = q'.reply → q = q') := by
  have hops : ((t.operatorPlusAssign r).operatorPlusAssign r).opsSum
      = wrapInt32 (t.opsSum + 2 * r.opsSum) := by
    simp only [TransactionCommitCostEstimation.operatorPlusAssign, wrapInt32_add_left]
    congr 1
    omega
  have hcost : ((t.operatorPlusAssign r).operatorPlusAssign r).costSum
      = wrapUInt64 (t.costSum + 2 * r.costSum) := by
    simp only [TransactionCommitCostEstimation.operatorPlusAssign, wrapUInt64_add_left]
    congr 1
    omega
  refine ⟨hops, hcost, ?_, ?_, ?_, ?_, ?_⟩
  · intro h1 h2
    rw [hops, wrapInt32_of_inRange _ h1 h2]
  · intro h1
    rw [hcost, wrapUInt64_of_le _ h1]
  · intro hne heq
    have e1 := congrArg (·.opsSum) heq
    have e2 := congrArg (·.costSum) heq
    obtain ⟨r1, r2, r3⟩ := hr
    simp only [TransactionCommitCostEstimation.operatorPlusAssign, wrapInt32_add_left,
      wrapUInt64_add_left, wrapInt32, wrapUInt64] at e1 e2
    unfold INT_MIN at r1
    unfold INT_MAX at r2
    unfold UINT64_MAX at r3
    rcases hne with hne | hne
    · apply hne
      omega
    · apply hne
      omega
  · intro e e' h1 h2
    cases e
    cases e'
    simp only at h1 h2
    rw [h1, h2]
  · intro UID Tag ReplyPromise q q' h1 h2
    cases q
    cases q'
    simp only at h1 h2
    rw [h1, h2]

/-- The report `{ops=3, cost=20}` merged twice into `{ops=5, cost=50}` gives
`{ops=11, cost=90}`, not the `{ops=8, cost=70}` of a single merge. -/
theorem operatorPlusAssign_twice_witness :
    (⟨3, 20⟩ : TransactionCommitCostEstimation).InRange ∧
    ((⟨5, 50⟩ : TransactionCommitCostEstimation).operatorPlusAssign ⟨3, 20⟩).operatorPlusAssign
        ⟨3, 20⟩
      ≠ (⟨5, 50⟩ : TransactionCommitCostEstimation).operatorPlusAssign ⟨3, 20⟩ :=
  ⟨by decide, (operatorPlusAssign_twice ⟨5, 50⟩ ⟨3, 20⟩ (by decide)).2.2.2.2.1
    (Or.inl (by decide))⟩

/-- Claim C4. Equality of coordinator identities is decided by the identifier alone:
`a == b` holds exactly when `a.id()` equals `b.id()` and `a != b` exactly when they
differ; replacing the locality and the five endpoint streams of either side by any other
values changes neither result. -/
theorem operatorEq_iff_id {Stream LocalityData UID : Type} [DecidableEq UID]
    (a b : RatekeeperInterface Stream LocalityData UID) :
    (a.operatorEq b = true ↔ a.id = b.id) ∧
    (a.operatorNe b = true ↔ a.id ≠ b.id) ∧
    (∀ (w g h c f w' g' h' c' f' : Stream) (l l' : LocalityData),
      (RatekeeperInterface.mk w g h c f l a.myId).operatorEq
          (RatekeeperInterface.mk w' g' h' c' f' l' b.myId) = a.operatorEq b ∧
      (RatekeeperInterface.mk w g h c f l a.myId).operatorNe
          (RatekeeperInterface.mk w' g' h' c' f' l' b.myId) = a.operatorNe b) := by
  refine ⟨?_, ?_, ?_⟩
  · simp [RatekeeperInterface.operatorEq]
  · simp [RatekeeperInterface.operatorNe, RatekeeperInterface.operatorEq]
  · intro w g h c f w' g' h' c' f' l l'
    exact ⟨rfl, rfl⟩

/-- Claim C5, as stated, fails: a report with a negative `opsSum` lowers the total's
`opsSum` (`{0,0} += {-1,0}` gives `opsSum = -1`), a `costSum` addition that exceeds
`2 ^ 64 - 1` wraps to a smaller value (`{0, 2^64-1} += {0,1}` gives `costSum = 0`), and
an `opsSum` addition that exceeds `INT_MAX` wraps to a negative value
(`{2147483647, 0} += {1, 0}`). -/
theorem operatorPlusAssign_monotone_counterexample :
    (⟨0, 0⟩ : TransactionCommitCostEstimation).InRange ∧
    (⟨-1, 0⟩ : TransactionCommitCostEstimation).InRange ∧
    ((⟨0, 0⟩ : TransactionCommitCostEstimation).operatorPlusAssign ⟨-1, 0⟩).opsSum
      < (⟨0, 0⟩ : TransactionCommitCostEstimation).opsSum ∧
    (⟨0, 18446744073709551615⟩ : TransactionCommitCostEstimation).InRange ∧
    (⟨0, 1⟩ : TransactionCommitCostEstimation).InRange ∧
    ((⟨0, 18446744073709551615⟩ : TransactionCommitCostEstimation).operatorPlusAssign
        ⟨0, 1⟩).costSum
      < (⟨0, 18446744073709551615⟩ : TransactionCommitCostEstimation).costSum ∧
    ((⟨2147483647, 0⟩ : TransactionCommitCostEstimation).operatorPlusAssign ⟨1, 0⟩).opsSum
      < (⟨2147483647, 0⟩ : TransactionCommitCostEstimation).opsSum := by
  decide

/-- Claim C5, amended. When the report's `opsSum` is non-negative and neither sum
overflows its type, the totals do not decrease: after `t += r` the new `opsSum` and
`costSum` are at least the old ones. -/
theorem operatorPlusAssign_monotone (t r : TransactionCommitCostEstimation)
    (ht : t.InRange) (hr : 0 ≤ r.opsSum) (hops : t.opsSum + r.opsSum ≤ INT_MAX)
    (hcost : t.costSum + r.costSum ≤ UINT64_MAX) :
    t.opsSum ≤ (t.operatorPlusAssign r).opsSum ∧
    t.costSum ≤ (t.operatorPlusAssign r).costSum := by
  have hlow : INT_MIN ≤ t.opsSum + r.opsSum := by
    have := ht.1
    omega
  simp only [TransactionCommitCostEstimation.operatorPlusAssign,
    wrapInt32_of_inRange _ hlow hops, wrapUInt64_of_le _ hcost]
  omega

/-- A total `{5, 50}` does not decrease when `{3, 20}` is merged into it. -/
theorem operatorPlusAssign_monotone_witness :
    (⟨5, 50⟩ : TransactionCommitCostEstimation).opsSum
      ≤ ((⟨5, 50⟩ : TransactionCommitCostEstimation).operatorPlusAssign ⟨3, 20⟩).opsSum ∧
    (⟨5, 50⟩ : TransactionCommitCostEstimation).costSum
      ≤ ((⟨5, 50⟩ : TransactionCommitCostEstimation).operatorPlusAssign ⟨3, 20⟩).costSum :=
  operatorPlusAssign_monotone ⟨5, 50⟩ ⟨3, 20⟩ (by decide) (by decide) (by decide) (by decide)

/-- Claim C6, as stated, fails: both operands of `{2147483647, 0} += {1, 0}` have
non-negative fields, and the resulting `opsSum` is `-2147483648`. -/
theorem operatorPlusAssign_nonneg_counterexample :
    (⟨2147483647, 0⟩ : TransactionCommitCostEstimation).InRange ∧
    (⟨1, 0⟩ : TransactionCommitCostEstimation).InRange ∧
    0 ≤ (⟨2147483647, 0⟩ : TransactionCommitCostEstimation).opsSum ∧
    0 ≤ (⟨1, 0⟩ : TransactionCommitCostEstimation).opsSum ∧
    ((⟨2147483647, 0⟩ : TransactionCommitCostEstimation).operatorPlusAssign ⟨1, 0⟩).getOpsSum
      = -2147483648 ∧
    ¬ (0 ≤ ((⟨2147483647, 0⟩ : TransactionCommitCostEstimation).operatorPlusAssign
        ⟨1, 0⟩).getOpsSum) := by
  decide

/-- Claim C6, amended. The default-constructed estimate has `opsSum = 0` and
`costSum = 0`; `costSum` is unsigned and never negative; for operands with non-negative
`opsSum` whose sum does not exceed `INT_MAX`, `a += b` has a non-negative `opsSum` (the
exact sum). A total aggregated from reports with non-negative `opsSum` whose sum does not
exceed `INT_MAX` has a non-negative `getOpsSum()`. -/
theorem operatorPlusAssign_nonneg (a b : TransactionCommitCostEstimation)
    (ha : 0 ≤ a.opsSum) (hb : 0 ≤ b.opsSum) (hsum : a.opsSum + b.opsSum ≤ INT_MAX) :
    ({} : TransactionCommitCostEstimation).opsSum = 0 ∧
    ({} : TransactionCommitCostEstimation).costSum = 0 ∧
    (a.operatorPlusAssign b).getOpsSum = a.opsSum + b.opsSum ∧
    0 ≤ (a.operatorPlusAssign b).getOpsSum ∧
    0 ≤ (a.operatorPlusAssign b).getCostSum ∧
    (∀ L : List TransactionCommitCostEstimation, (∀ x ∈ L, 0 ≤ x.opsSum) →
      (L.map (·.opsSum)).sum ≤ INT_MAX →
      0 ≤ (aggregate L).getOpsSum ∧ 0 ≤ (aggregate L).getCostSum) := by
  have hlow : INT_MIN ≤ a.opsSum + b.opsSum := by
    unfold INT_MIN
    omega
  have hval : (a.operatorPlusAssign b).getOpsSum = a.opsSum + b.opsSum := by
    simp only [TransactionCommitCostEstimation.getOpsSum,
      TransactionCommitCostEstimation.operatorPlusAssign, wrapInt32_of_inRange _ hlow hsum]
  refine ⟨rfl, rfl, hval, ?_, Nat.zero_le _, ?_⟩
  · rw [hval]
    omega
  · intro L hL hLsum
    have hnn : 0 ≤ (L.map (·.opsSum)).sum := by
      apply List.sum_nonneg
      intro x hx
      obtain ⟨e, he, rfl⟩ := List.mem_map.1 hx
      exact hL e he
    have hlo : INT_MIN ≤ (L.map (·.opsSum)).sum := by
      unfold INT_MIN
      omega
    refine ⟨?_, Nat.zero_le _⟩
    rw [aggregate_eq L]
    simp only [TransactionCommitCostEstimation.getOpsSum, wrapInt32_of_inRange _ hlo hLsum]
    exact hnn

/-- Merging `{3, 20}` into `{5, 50}` gives the non-negative `opsSum = 8`. -/
theorem operatorPlusAssign_nonneg_witness :
    ((⟨5, 50⟩ : TransactionCommitCostEstimation).operatorPlusAssign ⟨3, 20⟩).getOpsSum = 8 ∧
    0 ≤ ((⟨5, 50⟩ : TransactionCommitCostEstimation).operatorPlusAssign ⟨3, 20⟩).getOpsSum :=
  ⟨(operatorPlusAssign_nonneg ⟨5, 50⟩ ⟨3, 20⟩ (by decide) (by decide) (by decide)).2.2.1,
   (operatorPlusAssign_nonneg ⟨5, 50⟩ ⟨3, 20⟩ (by decide) (by decide) (by decide)).2.2.2.1⟩

/-- Claim C8. The `file_identifier` constants of the eight message types are pairwise
distinct: the map from message type to identifier is injective and the list of the eight
identifiers has no repetition. -/
theorem file_identifier_distinct :
    Function.Injective MessageType.file_identifier ∧
    (MessageType.all.map MessageType.file_identifier).Nodup ∧
    MessageType.all.length = 8 ∧
    (∀ m : MessageType, m ∈ MessageType.all) ∧
    MessageType.all.map MessageType.file_identifier
      = [5983305, 7845006, 9068521, 6997218, 8314904, 4268041, 6858612, 4150141] := by
  refine ⟨?_, by decide, rfl, ?_, rfl⟩
  · intro m m' hmm
    cases m <;> cases m' <;> first | rfl | exact absurd hmm (by decide)
  · intro m
    cases m <;> decide

/-- Claim C9. The interface constructed from a locality `l` and an identifier `u` has
`id() = u` and `locality = l`; `id()` returns the member `myId` (also after
`initEndpoints()`); two interfaces constructed with the same identifier compare equal, and
two constructed with different identifiers compare unequal. -/
theorem create_id_locality {Stream LocalityData UID : Type} [Inhabited Stream]
    [DecidableEq UID] (l : LocalityData) (u : UID) :
    (RatekeeperInterface.create l u : RatekeeperInterface Stream LocalityData UID).id = u ∧
    (RatekeeperInterface.create l u : RatekeeperInterface Stream LocalityData UID).locality
      = l ∧
    (∀ a : RatekeeperInterface Stream LocalityData UID,
      a.id = a.myId ∧ a.initEndpoints = a ∧ a.initEndpoints.id = a.id) ∧
    (∀ l' : LocalityData,
      (RatekeeperInterface.create l u : RatekeeperInterface Stream LocalityData UID).operatorEq
        (RatekeeperInterface.create l' u) = true ∧
      (RatekeeperInterface.create l u : RatekeeperInterface Stream LocalityData UID).operatorNe
        (RatekeeperInterface.create l' u) = false) ∧
    (∀ (l' : LocalityData) (u' : UID), u ≠ u' →
      (RatekeeperInterface.create l u : RatekeeperInterface Stream LocalityData UID).operatorEq
        (RatekeeperInterface.create l' u') = false ∧
      (RatekeeperInterface.create l u : RatekeeperInterface Stream LocalityData UID).operatorNe
        (RatekeeperInterface.create l' u') = true) := by
  refine ⟨rfl, rfl, fun a => ⟨rfl, rfl, rfl⟩, ?_, ?_⟩
  · intro l'
    simp [RatekeeperInterface.operatorNe, RatekeeperInterface.operatorEq,
      RatekeeperInterface.id, RatekeeperInterface.create]
  · intro l' u' hne
    simp [RatekeeperInterface.operatorNe, RatekeeperInterface.operatorEq,
      RatekeeperInterface.id, RatekeeperInterface.create, hne]

/-- Interfaces constructed with the identifiers 7 and 9 compare unequal, whatever the
localities. -/
theorem create_id_locality_witness :
    (RatekeeperInterface.create (1 : Nat) (7 : Nat) : RatekeeperInterface Unit Nat Nat).id = 7 ∧
    (RatekeeperInterface.create (1 : Nat) (7 : Nat) : RatekeeperInterface Unit Nat Nat).operatorEq
        (RatekeeperInterface.create (1 : Nat) (9 : Nat)) = false :=
  ⟨(create_id_locality (1 : Nat) (7 : Nat)).1,
   ((create_id_locality (1 : Nat) (7 : Nat)).2.2.2.2 1 9 (by decide)).1⟩

/-- Claim C10. The five-argument `GetRateInfoRequest` constructor stores each argument
in the member of the same name, unchanged: `requesterID`, `totalReleasedTransactions`,
`batchReleasedTransactions`, `throttledTagCounts` and `detailed`. -/
theorem create_stores_arguments {UID TagCounts ReplyPromise : Type} [Inhabited ReplyPromise]
    (r : UID) (t b : Int) (m : TagCounts) (d : Bool) :
    (GetRateInfoRequest.create r t b m d
        : GetRateInfoRequest UID TagCounts ReplyPromise).requesterID = r ∧
    (GetRateInfoRequest.create r t b m d
        : GetRateInfoRequest UID TagCounts ReplyPromise).totalReleasedTransactions = t ∧
    (GetRateInfoRequest.create r t b m d
        : GetRateInfoRequest UID TagCounts ReplyPromise).batchReleasedTransactions = b ∧
    (GetRateInfoRequest.create r t b m d
        : GetRateInfoRequest UID TagCounts ReplyPromise).throttledTagCounts = m ∧
    (GetRateInfoRequest.create r t b m d
        : GetRateInfoRequest UID TagCounts ReplyPromise).detailed = d :=
  ⟨rfl, rfl, rfl, rfl, rfl⟩

end Ratekeeper
